import Mathlib

/-!
Verification of `bin/deepstate/executors/fuzz/libfuzzer.py` (the `LibFuzzer`
fuzzer-frontend adapter of DeepState).

The embedding models:
  * the byte-string operations the Python code applies to stderr lines,
    over `List Char` (the stream is ASCII; one `Char` stands for one byte);
  * `LibFuzzer.cmd` (command-line synthesis) as a pure function on a
    configuration record and a session-paths record;
  * the session-layout part of `LibFuzzer.pre_exec` (fresh-start vs resume),
    with the two `deepstate.core` helpers it calls modelled from the spec
    because `deepstate/core` is not part of this source tree;
  * `LibFuzzer.populate_stats` as a function from a parser state
    (remaining stderr lines + stats snapshot) to either a new state or an
    uncaught Python exception (`Except.error`).
-/

namespace DeepState

/-- One stderr line, as the Python code sees it: a byte string
(including its trailing newline, when present). Modelled as a list of
characters; all inputs of interest are ASCII, one char per byte. -/
abbrev Line := List Char

/-- The characters stripped by Python's `bytes.strip()` with no argument
(also the separator class of `bytes.split()` with no argument):
space, tab, newline, carriage return, vertical tab, form feed. -/
def pyWS (c : Char) : Bool :=
  c = ' ' || c = '\t' || c = '\n' || c = '\r' || c = '\x0b' || c = '\x0c'

/-- Strip every character satisfying `p` from both ends of a line
(Python `bytes.strip`). -/
def pyStrip (p : Char → Bool) (l : Line) : Line :=
  ((l.dropWhile p).reverse.dropWhile p).reverse

/-- Python `line.strip()`. -/
def stripWS (l : Line) : Line := pyStrip pyWS l

/-- Python `token.strip(b"#")`. -/
def stripHash (l : Line) : Line := pyStrip (fun c => c = '#') l

/-- Split a line at the first occurrence of the character `sep`:
`none` when `sep` does not occur, otherwise the parts before and after it
(the separator removed). `Python bytes.split(sep, 1)` returns a one-element
list exactly when this returns `none`. -/
def splitFirst (sep : Char) : Line → Option (Line × Line)
  | [] => none
  | c :: cs =>
    if c = sep then some ([], cs)
    else (splitFirst sep cs).map (fun p => (c :: p.1, p.2))

/-- Python `line.split(b":", 1)[1]`: the part after the first colon, or an
`IndexError` (here: `none`) when the line contains no colon. -/
def afterColon (l : Line) : Option Line := (splitFirst ':' l).map Prod.snd

/-- Split a line at the first occurrence of the (non-empty) pattern `pat`:
`none` when `pat` is not a substring. Python `line.split(pat, 1)` yields a
two-element list exactly when this returns `some`, with the same parts. -/
def splitFirstSub (pat : Line) : Line → Option (Line × Line)
  | [] => none
  | c :: cs =>
    if pat.isPrefixOf (c :: cs) then some ([], (c :: cs).drop pat.length)
    else (splitFirstSub pat cs).map (fun p => (c :: p.1, p.2))

/-- Python `line.split()` (no argument): split on runs of whitespace,
dropping empty pieces. -/
def pyWords (l : Line) : List Line :=
  (l.splitOnP pyWS).filter (fun w => w ≠ [])

/-- `IOBase.readlines(hint)` for a positive hint, on a stream whose
remaining content is the given list of lines: lines are accumulated until
the total length reaches the hint (the line crossing the hint is included),
and the function returns the batch together with the rest of the stream.
The source always calls `readlines(100)`. -/
def readlinesHint (hint : Nat) : List Line → List Line × List Line
  | [] => ([], [])
  | l :: ls =>
    if hint ≤ l.length then ([l], ls)
    else
      let p := readlinesHint (hint - l.length) ls
      (l :: p.1, p.2)

/-- The statistics snapshot keys that `LibFuzzer.populate_stats` writes
(`self.stats`, a string-valued dictionary owned by the base frontend;
a key the parser has not written yet is `none`). -/
structure Stats where
  execs_done : Option String
  execs_per_sec : Option String
  paths_total : Option String
  bitmap_cvg : Option String
deriving DecidableEq

/-- The snapshot at session start: no key written yet. -/
def emptyStats : Stats := ⟨none, none, none, none⟩

/-- The marker every stats-bearing line must start with
(libfuzzer.py line 143: `line.startswith(b"EXTERNAL: ")`). -/
def marker : Line := ("EXTERNAL: ").data

/-- One non-blank in-block line applied to the snapshot (libfuzzer.py
lines 155-162): when the (already stripped) line contains the `": "`
separator and its key is `exec/s`, `units` or `cov`, store the value
under the corresponding snapshot key; otherwise leave the snapshot
unchanged. -/
def updateStat (st : Stats) (line : Line) : Stats :=
  match splitFirstSub ((": ").data) line with
  | some (key, value) =>
    if key = ("exec/s").data then
      { st with execs_per_sec := some (String.mk value) }
    else if key = ("units").data then
      { st with paths_total := some (String.mk value) }
    else if key = ("cov").data then
      { st with bitmap_cvg := some (String.mk value) }
    else st
  | none => st

/-- The inner loop of `LibFuzzer.populate_stats` (libfuzzer.py lines
149-162): consume a batch of lines belonging to an already-started stats
block. Each line is split at its first colon — raising `IndexError`
(`Except.error ()`) when it has none — and the remainder is stripped; a
blank remainder ends the block (first component `true`); any other
remainder is applied to the snapshot with `updateStat`. -/
def innerLoop : List Line → Stats → Except Unit (Bool × Stats)
  | [], st => .ok (false, st)
  | l :: ls, st =>
    match afterColon l with
    | none => .error ()
    | some rest =>
      let line := stripWS rest
      if line = [] ∨ line = ['\n'] then .ok (true, st)
      else innerLoop ls (updateStat st line)

/-- The outer loop of `LibFuzzer.populate_stats` (libfuzzer.py lines
139-153): scan a batch of lines for a block-start line (marker followed by
`#`). On a block start, the leading word with its `#` stripped becomes
`execs_done`, a further `readlines(100)` batch is pulled from the stream
and handed to the inner loop, and a block end reported by the inner loop
(`done_reading`) stops the whole scan, abandoning the rest of the batch.
Returns the remaining stream content and the updated snapshot.
(The marker contains a colon, so `afterColon` never yields `none` on a
marker line; `getD []` is unreachable there.) -/
def outerLoop : List Line → List Line → Stats → Except Unit (List Line × Stats)
  | [], stream, st => .ok (stream, st)
  | l :: ls, stream, st =>
    if marker.isPrefixOf l then
      let line := stripWS ((afterColon l).getD [])
      if (("#").data).isPrefixOf line then
        let st1 := { st with
          execs_done := some (String.mk (stripHash ((pyWords line).headD []))) }
        let p := readlinesHint 100 stream
        match innerLoop p.1 st1 with
        | .error e => .error e
        | .ok (done, st2) =>
          if done then .ok (p.2, st2)
          else outerLoop ls p.2 st2
      else outerLoop ls stream st
    else outerLoop ls stream st

/-- State of one `LibFuzzer` instance as far as `populate_stats` is
concerned: the not-yet-read lines of the subprocess's stderr, and the
stats snapshot accumulated so far. -/
structure PState where
  stream : List Line
  stats : Stats
deriving DecidableEq

/-- `LibFuzzer.populate_stats` (libfuzzer.py lines 131-162), minus the
out-of-scope base-class call and the `proc is open` guard: read one
`readlines(100)` batch from the stream and run the outer scan on it.
`Except.error ()` models an uncaught Python exception escaping the method. -/
def populate_stats (ps : PState) : Except Unit PState :=
  let p := readlinesHint 100 ps.stream
  match outerLoop p.1 p.2 ps.stats with
  | .error e => .error e
  | .ok (s, st) => .ok ⟨s, st⟩

/-- Python truthiness of an optional string attribute
(`if self.dictionary:` / `if self.input_seeds:`): `None` and the empty
string are falsy. -/
def truthyStr : Option String → Bool
  | none => false
  | some s => !s.isEmpty

/-- Python truthiness of an optional integer attribute
(`if self.exec_timeout:`): `None` and `0` are falsy. -/
def truthyNat : Option Nat → Bool
  | none => false
  | some n => n != 0

/-- The Python 3 expression `"{}".format(t / 1000)` for a non-negative
integer millisecond count `t`: TRUE division (the result is a float), so
the token shows the exact decimal expansion of `t/1000` with trailing
fractional zeros removed but at least one fractional digit kept
(`1500 ↦ "1.5"`, `2000 ↦ "2.0"`, `1 ↦ "0.001"`). This is CPython's
shortest-round-trip float formatting for every timeout in the
double-exact range. -/
def pyDiv1000Repr (t : Nat) : String :=
  let d1 := t % 1000 / 100
  let d2 := t % 100 / 10
  let d3 := t % 10
  let frac :=
    if d3 ≠ 0 then toString d1 ++ toString d2 ++ toString d3
    else if d2 ≠ 0 then toString d1 ++ toString d2
    else toString d1
  toString (t / 1000) ++ "." ++ frac

/-- The configuration attributes `LibFuzzer.cmd` reads from `self`
(all set by the out-of-scope CLI layer): memory limit in MB, maximum
input size in bytes, the ordered passthrough `fuzzer_args` pairs
(value `none` for a bare flag), optional dictionary path, optional
execution timeout in milliseconds, and the final-statistics switch. -/
structure FuzzConfig where
  mem_limit : Nat
  max_input_size : Nat
  fuzzer_args : List (String × Option String)
  dictionary : Option String
  exec_timeout : Option Nat
  post_stats : Bool
deriving DecidableEq

/-- The session-path attributes computed by `LibFuzzer.pre_exec`:
the shared push/pull (queue) directory, the crash directory, and the
seed-corpus path (`input_seeds`, `none` after a resume). `resuming`
records which `pre_exec` branch ran (the spec's `SessionPaths.resuming`;
implicit in the code). -/
structure SessionPaths where
  push_dir : String
  pull_dir : String
  crash_dir : String
  input_seeds : Option String
  resuming : Bool
deriving DecidableEq

/-- One passthrough pair rendered as a token (libfuzzer.py lines 105-109):
`-key=value`, or `-key` when the value is absent. -/
def fmtExtraArg : String × Option String → String
  | (k, some v) => "-" ++ k ++ "=" ++ v
  | (k, none) => "-" ++ k

/-- `LibFuzzer.cmd` (libfuzzer.py lines 86-128): the engine argv tail,
in source order — six fixed required flags, the passthrough pairs, the
three truthiness-gated optional flags, the push/queue directory, and the
seed directory when truthy. The source contains no `raise`; the function
is total. -/
def cmd (cfg : FuzzConfig) (paths : SessionPaths) : List String :=
  ["-rss_limit_mb=" ++ toString cfg.mem_limit,
   "-max_len=" ++ toString cfg.max_input_size,
   "-artifact_prefix=" ++ (paths.crash_dir ++ "/"),
   "-workers=1",
   "-reload=1",
   "-runs=-1"]
  ++ cfg.fuzzer_args.map fmtExtraArg
  ++ (if truthyStr cfg.dictionary then
        ["-dict=" ++ cfg.dictionary.getD ""] else [])
  ++ (if truthyNat cfg.exec_timeout then
        ["-timeout=" ++ pyDiv1000Repr (cfg.exec_timeout.getD 0)] else [])
  ++ (if cfg.post_stats then ["-print_final_stats=1"] else [])
  ++ [paths.push_dir]
  ++ (if truthyStr paths.input_seeds then [paths.input_seeds.getD ""] else [])

/-- The filesystem facts `pre_exec` consults: the entry listing of the
output test directory (`os.listdir(self.output_test_dir)`) and the set of
directories that exist on disk. -/
structure Fs where
  outputListing : List String
  existingDirs : List String
deriving DecidableEq

/-- `os.path.join` for a relative second component. -/
def pathJoin (a b : String) : String := a ++ "/" ++ b

/-- Modelled from the spec: `check_required_directories` is defined in
`deepstate.core` (not under src). Per the spec it raises `ConfigError`
("missing required directory") unless every listed directory exists;
here it returns whether all of them exist. -/
def check_required_directories (dirs : List String) (fs : Fs) : Bool :=
  dirs.all fs.existingDirs.contains

/-- Modelled from the spec: `setup_new_session` is defined in
`deepstate.core` (not under src). Per the spec it creates each listed
directory (with any missing parents); here it returns the list of
directories it creates. -/
def setup_new_session (dirs : List String) : List String := dirs

/-- The session-layout part of `LibFuzzer.pre_exec` (libfuzzer.py lines
71-83): compute the queue/crash paths, then branch on whether the output
directory already has entries. Non-empty: require both directories to
exist (`Except.error ()` is the raised `ConfigError`), drop any supplied
seed path, create nothing. Empty: keep the seed path and create the
pull (= push) and crash directories. Returns the resulting paths and the
list of directories created. -/
def pre_exec (output_test_dir : String) (input_seeds : Option String)
    (fs : Fs) : Except Unit (SessionPaths × List String) :=
  let sync_dir := pathJoin output_test_dir "sync_dir"
  let main_dir := pathJoin output_test_dir "the_fuzzer"
  let push_dir := pathJoin sync_dir "queue"
  let pull_dir := push_dir
  let crash_dir := pathJoin main_dir "crashes"
  if fs.outputListing.length > 0 then
    if check_required_directories [push_dir, pull_dir, crash_dir] fs then
      .ok (⟨push_dir, pull_dir, crash_dir, none, true⟩, [])
    else .error ()
  else
    .ok (⟨push_dir, pull_dir, crash_dir, input_seeds, false⟩,
         setup_new_session [pull_dir, crash_dir])

/-! Spec-side definitions: the four token groups of the spec's ordering
rules (§4.2), to be compared with `cmd`. -/

/-- Follows the spec's words (§4.2 rule 1): the required flags in their
fixed order — resource limit, max input size, artifact prefix with a
trailing path separator, worker count fixed at 1, reload flag, and the
run-indefinitely sentinel. -/
def specRequiredTokens (cfg : FuzzConfig) (paths : SessionPaths) : List String :=
  ["-rss_limit_mb=" ++ toString cfg.mem_limit,
   "-max_len=" ++ toString cfg.max_input_size,
   "-artifact_prefix=" ++ (paths.crash_dir ++ "/"),
   "-workers=1",
   "-reload=1",
   "-runs=-1"]

/-- Follows the spec's words (§4.2 rule 2): the passthrough pairs in
caller-supplied order. -/
def specPassthroughTokens (cfg : FuzzConfig) : List String :=
  cfg.fuzzer_args.map fmtExtraArg

/-- Follows the spec's words (§4.2 rule 3): the optional flags, each
present only if set — dictionary, execution timeout, final statistics. -/
def specOptionalTokens (cfg : FuzzConfig) : List String :=
  (if truthyStr cfg.dictionary then ["-dict=" ++ cfg.dictionary.getD ""] else [])
  ++ (if truthyNat cfg.exec_timeout then
        ["-timeout=" ++ pyDiv1000Repr (cfg.exec_timeout.getD 0)] else [])
  ++ (if cfg.post_stats then ["-print_final_stats=1"] else [])

/-- Follows the spec's words (§4.2 rule 4): the positional arguments,
appended last — the push/queue directory, then the seed directory when
present. -/
def specPositionalTokens (paths : SessionPaths) : List String :=
  [paths.push_dir]
  ++ (if truthyStr paths.input_seeds then [paths.input_seeds.getD ""] else [])

/-! Definitions used to state the stats-parser claims. -/

/-- A line that starts a stats block: it carries the marker and, once the
marker part is split off and the remainder stripped, begins with `#`. -/
def isBlockStart (l : Line) : Bool :=
  marker.isPrefixOf l &&
    (("#").data).isPrefixOf (stripWS ((afterColon l).getD []))

/-- The executions-done counter a block-start line carries: the first
whitespace-separated word of the stripped remainder, with its `#`
characters stripped — exactly the value `populate_stats` stores under
`execs_done`. -/
def blockCounter (l : Line) : String :=
  String.mk (stripHash ((pyWords (stripWS ((afterColon l).getD []))).headD []))

/-- A line the inner loop treats as a block end: it splits at a colon and
the stripped remainder is blank. -/
def isBlockEnd (l : Line) : Bool :=
  match afterColon l with
  | none => false
  | some r => stripWS r = [] || stripWS r = ['\n']

/-- A stored stats value interpreted as a number (the snapshot stores
opaque text): the value of a non-empty all-digit string, 0 otherwise. -/
def statNat (v : Option String) : Nat :=
  let l := (v.getD "").data
  if l ≠ [] ∧ l.all Char.isDigit then
    l.foldl (fun n c => 10 * n + (c.toNat - 48)) 0
  else 0

/-- A block-start line longer than the 100-byte `readlines` hint, so that
it fills the outer batch by itself and the lines after it are read by the
inner (in-block) loop. Its counter is `1`. -/
def longBlockLine : Line :=
  ("EXTERNAL: #1 " ++ String.mk (List.replicate 87 'x') ++ "\n").data

/-- A concrete fresh-session configuration used by witnesses. -/
def cfgW : FuzzConfig := ⟨1, 2, [], none, none, false⟩

/-- The session paths `pre_exec` computes for output directory `"o"` and
seed path `"s"` on a fresh session. -/
def pathsW : SessionPaths :=
  ⟨"o/sync_dir/queue", "o/sync_dir/queue", "o/the_fuzzer/crashes",
   some "s", false⟩

/-! Theorems. -/

/-- C1, counterexample: with `exec_timeout = 1500` ms the built command
contains `-timeout=1.5` (Python 3 true division), not `-timeout=1` as the
claim's truncating-division reading would give. -/
theorem timeout_truncation_cex :
    ("-timeout=1.5") ∈
      cmd ⟨50, 100, [], none, some 1500, false⟩
        ⟨"/o/q", "/o/q", "/o/c", none, false⟩ ∧
    ("-timeout=1") ∉
      cmd ⟨50, 100, [], none, some 1500, false⟩
        ⟨"/o/q", "/o/q", "/o/c", none, false⟩ := by
  decide

/-- C1, amended: for every configuration with `exec_timeout = 1500` ms
(and any other fields), the built command contains the timeout flag with
value `1.5` — milliseconds true-divided by 1000, not integer-divided. -/
theorem timeout_true_division (cfg : FuzzConfig) (paths : SessionPaths)
    (h : cfg.exec_timeout = some 1500) :
    ("-timeout=1.5") ∈ cmd cfg paths := by
  have key : (if truthyNat cfg.exec_timeout then
      ["-timeout=" ++ pyDiv1000Repr (cfg.exec_timeout.getD 0)] else [])
      = ["-timeout=1.5"] := by
    rw [h]; decide
  unfold cmd
  rw [key]
  simp

/-- Witness for `timeout_true_division` at a concrete configuration. -/
theorem timeout_true_division_witness :
    ("-timeout=1.5") ∈
      cmd ⟨1, 2, [("x", none)], some "d", some 1500, true⟩
        ⟨"q", "q", "c", some "sd", false⟩ :=
  timeout_true_division _ _ rfl

/-- C2: `populate_stats` is not exception-safe — on a stream whose
block-start line is followed by a line with no colon (here a bare
newline), the inner loop's `line.split(b":", 1)[1]` raises `IndexError`
(the claim and the spec say malformed lines are dropped, never fatal). -/
theorem populate_stats_raises_on_colonless_line :
    populate_stats ⟨[longBlockLine, ['\n']], emptyStats⟩ = .error () := by
  rfl

/-- C4, counterexample: a passthrough key equal to the required flag name
`rss_limit_mb` is not rejected with a `ConfigError` — `cmd` (which
contains no failure path at all) emits the colliding flag as a duplicate. -/
theorem reserved_flag_collision_cex :
    cmd ⟨4096, 8192, [("rss_limit_mb", some "5")], none, none, false⟩
        ⟨"/o/q", "/o/q", "/o/c", none, false⟩ =
      ["-rss_limit_mb=4096", "-max_len=8192", "-artifact_prefix=/o/c/",
       "-workers=1", "-reload=1", "-runs=-1", "-rss_limit_mb=5", "/o/q"] ∧
    ("-rss_limit_mb=5") ∈
      cmd ⟨4096, 8192, [("rss_limit_mb", some "5")], none, none, false⟩
        ⟨"/o/q", "/o/q", "/o/c", none, false⟩ := by
  decide

/-- C4, amended: no reserved-flag collision check exists — command
building always succeeds and every passthrough pair is emitted verbatim,
even when its key equals one of the required flag names (the collision
merely produces a duplicate flag). -/
theorem passthrough_always_emitted (cfg : FuzzConfig) (paths : SessionPaths)
    (kv : String × Option String) (h : kv ∈ cfg.fuzzer_args) :
    fmtExtraArg kv ∈ cmd cfg paths := by
  have hm : fmtExtraArg kv ∈ cfg.fuzzer_args.map fmtExtraArg :=
    List.mem_map_of_mem _ h
  unfold cmd
  simp only [List.append_assoc, List.mem_append]
  tauto

/-- Witness for `passthrough_always_emitted` at the colliding key. -/
theorem passthrough_always_emitted_witness :
    fmtExtraArg ("rss_limit_mb", some "5") ∈
      cmd ⟨4096, 8192, [("rss_limit_mb", some "5")], none, none, false⟩
        ⟨"/o/q", "/o/q", "/o/c", none, false⟩ :=
  passthrough_always_emitted _ _ _ (by decide)

/-- C7: for every configuration and session paths, the built token list
is exactly the spec's four contiguous groups in order — required flags
(resource limit, max input size, artifact prefix with trailing separator,
worker count fixed at 1, reload, run-indefinitely sentinel), then
passthrough flags in caller order, then the optional flags present only
if set, then the positional arguments. -/
theorem cmd_group_ordering (cfg : FuzzConfig) (paths : SessionPaths) :
    cmd cfg paths =
      specRequiredTokens cfg paths ++ specPassthroughTokens cfg ++
        specOptionalTokens cfg ++ specPositionalTokens paths := by
  simp [cmd, specRequiredTokens, specPassthroughTokens, specOptionalTokens,
    specPositionalTokens, List.append_assoc]

/-- C10: the optional flags are gated on Python truthiness — a
configuration with `exec_timeout = 0` ms, or with an empty-string
dictionary path, builds exactly the command of the configuration with
that option unset (so no timeout and no dictionary flag is emitted). -/
theorem optional_flags_truthiness (cfg : FuzzConfig) (paths : SessionPaths) :
    cmd { cfg with exec_timeout := some 0 } paths =
      cmd { cfg with exec_timeout := none } paths ∧
    cmd { cfg with dictionary := some "" } paths =
      cmd { cfg with dictionary := none } paths := by
  constructor <;> simp [cmd, truthyNat, truthyStr, String.isEmpty]

/-- C3: session preparation is a three-way case split on the output
directory — empty: both the queue and crash directories are created, the
seed path is kept, and the session is fresh (`resuming = false`);
non-empty with both subdirectories present: resuming, nothing created;
non-empty with a subdirectory missing: `ConfigError`. On the resume
branch the created-directories list is empty (nothing on disk is touched). -/
theorem pre_exec_three_way_split (out : String) (seeds : Option String)
    (fs : Fs) :
    (fs.outputListing = [] →
      pre_exec out seeds fs =
        .ok (⟨pathJoin (pathJoin out "sync_dir") "queue",
              pathJoin (pathJoin out "sync_dir") "queue",
              pathJoin (pathJoin out "the_fuzzer") "crashes",
              seeds, false⟩,
             [pathJoin (pathJoin out "sync_dir") "queue",
              pathJoin (pathJoin out "the_fuzzer") "crashes"])) ∧
    (fs.outputListing ≠ [] →
      check_required_directories
        [pathJoin (pathJoin out "sync_dir") "queue",
         pathJoin (pathJoin out "sync_dir") "queue",
         pathJoin (pathJoin out "the_fuzzer") "crashes"] fs = true →
      pre_exec out seeds fs =
        .ok (⟨pathJoin (pathJoin out "sync_dir") "queue",
              pathJoin (pathJoin out "sync_dir") "queue",
              pathJoin (pathJoin out "the_fuzzer") "crashes",
              none, true⟩, [])) ∧
    (fs.outputListing ≠ [] →
      check_required_directories
        [pathJoin (pathJoin out "sync_dir") "queue",
         pathJoin (pathJoin out "sync_dir") "queue",
         pathJoin (pathJoin out "the_fuzzer") "crashes"] fs = false →
      pre_exec out seeds fs = .error ()) := by
  refine ⟨?_, ?_, ?_⟩
  · intro h
    simp [pre_exec, setup_new_session, h]
  · intro h hc
    have hl : 0 < fs.outputListing.length := List.length_pos.mpr h
    simp [pre_exec, hl, hc]
  · intro h hc
    have hl : 0 < fs.outputListing.length := List.length_pos.mpr h
    simp [pre_exec, hl, hc]

/-- Witness for `pre_exec_three_way_split`: all three branches at
concrete inputs. -/
theorem pre_exec_three_way_split_witness :
    pre_exec "o" (some "s") ⟨[], []⟩ =
      .ok (⟨"o/sync_dir/queue", "o/sync_dir/queue", "o/the_fuzzer/crashes",
            some "s", false⟩,
           ["o/sync_dir/queue", "o/the_fuzzer/crashes"]) ∧
    pre_exec "o" (some "s")
        ⟨["entry"], ["o/sync_dir/queue", "o/the_fuzzer/crashes"]⟩ =
      .ok (⟨"o/sync_dir/queue", "o/sync_dir/queue", "o/the_fuzzer/crashes",
            none, true⟩, []) ∧
    pre_exec "o" (some "s") ⟨["entry"], ["o/sync_dir/queue"]⟩ =
      .error () := by
  refine ⟨?_, ?_, ?_⟩
  · exact (pre_exec_three_way_split "o" (some "s") ⟨[], []⟩).1 rfl
  · exact (pre_exec_three_way_split "o" (some "s")
      ⟨["entry"], ["o/sync_dir/queue", "o/the_fuzzer/crashes"]⟩).2.1
      (by decide) (by decide)
  · exact (pre_exec_three_way_split "o" (some "s")
      ⟨["entry"], ["o/sync_dir/queue"]⟩).2.2 (by decide) (by decide)

/-- C8: after session preparation, the supplied seed path is dropped on
resume (`input_seeds = none`), and the built command ends with the
push/queue directory followed by the seed directory exactly when the
session is fresh and a (truthy) seed path was supplied. -/
theorem seed_iff_fresh_and_supplied (cfg : FuzzConfig) (out : String)
    (seeds : Option String) (fs : Fs) (paths : SessionPaths)
    (created : List String)
    (h : pre_exec out seeds fs = .ok (paths, created)) :
    (paths.resuming = true → paths.input_seeds = none) ∧
    cmd cfg paths =
      specRequiredTokens cfg paths ++ specPassthroughTokens cfg ++
        specOptionalTokens cfg ++ [paths.push_dir] ++
        (if paths.resuming = false ∧ truthyStr seeds = true
         then [seeds.getD ""] else []) := by
  simp only [pre_exec] at h
  split at h
  · split at h
    · simp only [Except.ok.injEq, Prod.mk.injEq] at h
      obtain ⟨hp, -⟩ := h
      subst hp
      refine ⟨fun _ => rfl, ?_⟩
      simp [cmd, specRequiredTokens, specPassthroughTokens,
        specOptionalTokens, truthyStr, List.append_assoc]
    · exact absurd h (by simp)
  · simp only [Except.ok.injEq, Prod.mk.injEq] at h
    obtain ⟨hp, -⟩ := h
    subst hp
    refine ⟨fun hr => by simp at hr, ?_⟩
    simp only [cmd, specRequiredTokens, specPassthroughTokens,
      specOptionalTokens, List.append_assoc]
    cases hts : truthyStr seeds <;> simp [hts]

/-- Witness for `seed_iff_fresh_and_supplied` on a fresh session with a
seed path. -/
theorem seed_iff_fresh_and_supplied_witness :
    (pathsW.resuming = true → pathsW.input_seeds = none) ∧
    cmd cfgW pathsW =
      specRequiredTokens cfgW pathsW ++ specPassthroughTokens cfgW ++
        specOptionalTokens cfgW ++ [pathsW.push_dir] ++
        (if pathsW.resuming = false ∧ truthyStr (some "s") = true
         then [(some "s").getD ""] else []) :=
  seed_iff_fresh_and_supplied cfgW "o" (some "s") ⟨[], []⟩ pathsW
    ["o/sync_dir/queue", "o/the_fuzzer/crashes"] (by rfl)

/-- C5, counterexample: inside a block, a line lacking the
`EXTERNAL: ` marker is not ignored — here the unmarked line
`x:exec/s: 99` updates the `execs_per_sec` key of the snapshot. -/
theorem nonmarker_updates_in_block_cex :
    marker.isPrefixOf (("x:exec/s: 99\n").data) = false ∧
    populate_stats ⟨[longBlockLine, ("x:exec/s: 99\n").data], emptyStats⟩ =
      .ok ⟨[], ⟨some "1", some "99", none, none⟩⟩ :=
  ⟨by decide, by rfl⟩

/-- C6, counterexample: the batch read for a block can extend past the
block-end line; those already-read lines are discarded, not left for the
next call — here `EXTERNAL: exec/s: 55` sits after the block end, the
returned stream is empty, and `execs_per_sec` was never updated. -/
theorem batch_remainder_lost_cex :
    populate_stats
        ⟨[longBlockLine, ("EXTERNAL: \n").data,
          ("EXTERNAL: exec/s: 55\n").data], emptyStats⟩ =
      .ok ⟨[], ⟨some "1", none, none, none⟩⟩ ∧
    ("EXTERNAL: exec/s: 55\n").data ∉ ([] : List Line) :=
  ⟨by rfl, by decide⟩

/-- C9, counterexample: the parser stores whatever counter the stream
presents — a later block-start with `#5` overwrites an earlier `42`, so
`execs_done` (read as a number) decreases. -/
theorem execs_done_decreases_cex :
    populate_stats ⟨[("EXTERNAL: #42\n").data], emptyStats⟩ =
      .ok ⟨[], ⟨some "42", none, none, none⟩⟩ ∧
    populate_stats ⟨[("EXTERNAL: #5\n").data],
        ⟨some "42", none, none, none⟩⟩ =
      .ok ⟨[], ⟨some "5", none, none, none⟩⟩ ∧
    statNat (some "5") < statNat (some "42") :=
  ⟨by rfl, by rfl, by decide⟩

/-- C5, amended: while scanning for a block (the outer loop), a line
lacking the `EXTERNAL: ` marker is ignored entirely — it updates nothing
and the scan proceeds with the same stream position and snapshot. (Inside
a block the marker is not re-checked; see the counterexample.) -/
theorem scanning_ignores_nonmarker (l : Line) (ls stream : List Line)
    (st : Stats) (h : marker.isPrefixOf l = false) :
    outerLoop (l :: ls) stream st = outerLoop ls stream st := by
  simp [outerLoop, h]

/-- Witness for `scanning_ignores_nonmarker` on a concrete unmarked line. -/
theorem scanning_ignores_nonmarker_witness :
    outerLoop [("INFO: Seed: 1234\n").data] [] emptyStats =
      outerLoop [] [] emptyStats :=
  scanning_ignores_nonmarker _ [] [] emptyStats (by decide)

/-- C6, amended: once the inner loop reaches a block-end line, the rest
of its batch is irrelevant — the result is the same as if the batch ended
at the terminator (no further line is processed; the lines already read
into the batch are simply dropped). -/
theorem block_end_stops_consumption (pre post : List Line) (st : Stats)
    (term : Line) (hterm : isBlockEnd term = true) :
    innerLoop (pre ++ term :: post) st = innerLoop (pre ++ [term]) st := by
  induction pre generalizing st with
  | nil =>
    simp only [List.nil_append]
    unfold isBlockEnd at hterm
    cases hac : afterColon term with
    | none => rw [hac] at hterm; exact absurd hterm (by simp)
    | some r =>
      rw [hac] at hterm
      have hblank : stripWS r = [] ∨ stripWS r = ['\n'] := by
        simpa using hterm
      simp only [innerLoop, hac]
      rw [if_pos hblank, if_pos hblank]
  | cons a pre ih =>
    cases hac : afterColon a with
    | none => simp [List.cons_append, innerLoop, hac]
    | some rest =>
      simp only [List.cons_append, innerLoop, hac]
      split
      · rfl
      · exact ih _

/-- Witness for `block_end_stops_consumption`: a key/value line after the
blank terminator does not change the inner loop's result. -/
theorem block_end_stops_consumption_witness :
    innerLoop ([("EXTERNAL: exec/s: 9\n").data] ++
        ("EXTERNAL: \n").data :: [("EXTERNAL: cov: 8\n").data]) emptyStats =
      innerLoop ([("EXTERNAL: exec/s: 9\n").data] ++
        [("EXTERNAL: \n").data]) emptyStats :=
  block_end_stops_consumption _ _ _ _ (by decide)

/-- The two components of `readlinesHint` partition the stream: the batch
followed by what is left is the original stream. -/
theorem readlinesHint_append (h : Nat) (s : List Line) :
    (readlinesHint h s).1 ++ (readlinesHint h s).2 = s := by
  induction s generalizing h with
  | nil => rfl
  | cons l ls ih =>
    simp only [readlinesHint]
    split
    · simp
    · simpa using ih (h - l.length)

/-- The per-line snapshot update never writes `execs_done`. -/
theorem updateStat_execs_done (st : Stats) (line : Line) :
    (updateStat st line).execs_done = st.execs_done := by
  unfold updateStat
  split
  · split_ifs <;> rfl
  · rfl

/-- The inner (in-block) loop never writes `execs_done`. -/
theorem innerLoop_execs_done (batch : List Line) (st : Stats)
    (done : Bool) (st' : Stats)
    (h : innerLoop batch st = .ok (done, st')) :
    st'.execs_done = st.execs_done := by
  induction batch generalizing st with
  | nil =>
    simp only [innerLoop, Except.ok.injEq, Prod.mk.injEq] at h
    rw [← h.2]
  | cons l ls ih =>
    cases hac : afterColon l with
    | none => simp [innerLoop, hac] at h
    | some rest =>
      simp only [innerLoop, hac] at h
      split at h
      · simp only [Except.ok.injEq, Prod.mk.injEq] at h
        rw [← h.2]
      · rw [ih _ h, updateStat_execs_done]

/-- After the outer scan, `execs_done` is either untouched or the counter
of some block-start line of the batch or of the stream it read from. -/
theorem outerLoop_execs_done (batch stream : List Line) (st : Stats)
    (s' : List Line) (st' : Stats)
    (h : outerLoop batch stream st = .ok (s', st')) :
    st'.execs_done = st.execs_done ∨
      ∃ l, (l ∈ batch ∨ l ∈ stream) ∧ isBlockStart l = true ∧
        st'.execs_done = some (blockCounter l) := by
  induction batch generalizing stream st with
  | nil =>
    left
    simp only [outerLoop, Except.ok.injEq, Prod.mk.injEq] at h
    rw [← h.2]
  | cons l ls ih =>
    simp only [outerLoop] at h
    split at h
    case isFalse hm =>
      rcases ih _ _ h with h1 | ⟨l', hmem, hbs, hval⟩
      · exact Or.inl h1
      · refine Or.inr ⟨l', ?_, hbs, hval⟩
        rcases hmem with hb | hs
        · exact Or.inl (List.mem_cons_of_mem _ hb)
        · exact Or.inr hs
    case isTrue hm =>
      split at h
      case isFalse hh =>
        rcases ih _ _ h with h1 | ⟨l', hmem, hbs, hval⟩
        · exact Or.inl h1
        · refine Or.inr ⟨l', ?_, hbs, hval⟩
          rcases hmem with hb | hs
          · exact Or.inl (List.mem_cons_of_mem _ hb)
          · exact Or.inr hs
      case isTrue hh =>
        have hbs : isBlockStart l = true := by
          simp [isBlockStart, hm, hh]
        split at h
        case h_1 e heq => exact absurd h (by simp)
        case h_2 done st2 heq =>
          have hed : st2.execs_done = some (blockCounter l) := by
            have h2 := innerLoop_execs_done _ _ _ _ heq
            rw [h2]; rfl
          have hsub : ∀ x, x ∈ (readlinesHint 100 stream).2 → x ∈ stream := by
            intro x hx
            rw [← readlinesHint_append 100 stream]
            exact List.mem_append_right _ hx
          split at h
          · simp only [Except.ok.injEq, Prod.mk.injEq] at h
            refine Or.inr ⟨l, Or.inl (List.mem_cons_self _ _), hbs, ?_⟩
            rw [← h.2]; exact hed
          · rcases ih _ _ h with h1 | ⟨l', hmem, hbs', hval⟩
            · exact Or.inr ⟨l, Or.inl (List.mem_cons_self _ _), hbs,
                h1 ▸ hed⟩
            · refine Or.inr ⟨l', ?_, hbs', hval⟩
              rcases hmem with hb | hs
              · exact Or.inl (List.mem_cons_of_mem _ hb)
              · exact Or.inr (hsub _ hs)

/-- C9, amended: the parser stores block-start counters verbatim and does
not itself enforce monotonicity, but `execs_done` (read as a number)
never decreases across a `populate_stats` call whose stream only offers
counters at least as large as the stored one — so it is monotonically
non-decreasing for streams (like libFuzzer's) whose counters are. -/
theorem execs_done_monotone_of_stream_monotone (ps ps' : PState)
    (h : populate_stats ps = .ok ps')
    (hmono : ∀ l ∈ ps.stream, isBlockStart l = true →
      statNat ps.stats.execs_done ≤ statNat (some (blockCounter l))) :
    statNat ps.stats.execs_done ≤ statNat ps'.stats.execs_done := by
  simp only [populate_stats] at h
  cases hout : outerLoop (readlinesHint 100 ps.stream).1
      (readlinesHint 100 ps.stream).2 ps.stats with
  | error e => rw [hout] at h; exact absurd h (by simp)
  | ok r =>
    rw [hout] at h
    simp only [Except.ok.injEq] at h
    have hst : ps'.stats = r.2 := by rw [← h]
    rcases outerLoop_execs_done _ _ _ _ _ hout with h1 | ⟨l, hmem, hbs, hval⟩
    · rw [hst, h1]
    · have hl : l ∈ ps.stream := by
        rw [← readlinesHint_append 100 ps.stream]
        rcases hmem with hb | hs
        · exact List.mem_append_left _ hb
        · exact List.mem_append_right _ hs
      rw [hst, hval]
      exact hmono l hl hbs

/-- Witness for `execs_done_monotone_of_stream_monotone`: a stored
counter of 3 and a stream offering 7. -/
theorem execs_done_monotone_witness :
    statNat (Stats.execs_done ⟨some "3", none, none, none⟩) ≤
      statNat (Stats.execs_done ⟨some "7", none, none, none⟩) :=
  execs_done_monotone_of_stream_monotone
    ⟨[("EXTERNAL: #7\n").data], ⟨some "3", none, none, none⟩⟩
    ⟨[], ⟨some "7", none, none, none⟩⟩ (by rfl) (by decide)

end DeepState
